import Mathlib

/-!
Verification of the HTTP surface of the `santoshvandari/DevOps` repository.

The repository holds two independent services:
* Service A (`src/Docker/1/app.py`): a Flask app with a single route
  `GET /` whose handler `root` returns a fixed string, and a bootstrap
  block that binds to `0.0.0.0:5000` when run as the main module.
* Service B (`src/Docker/2/main.py`): a FastAPI app with routes `GET /`
  (handler `read_root`) and `POST /` (handler `read_post_root`), each
  returning a fixed single-key dictionary.

Handlers, route tables and the bootstrap block are embedded from the
source.  The frameworks' request dispatch (Flask / FastAPI routing) is
not part of the repository; it is modelled from the spec's description
of the framework defaults (match on method and path; 404 for an
unmatched path, 405 for a matched path with an unsupported method;
a handler's return value is wrapped in a 200 response).
-/

/-- HTTP request methods. -/
inductive Method where
  | GET
  | POST
  | PUT
  | DELETE
  | PATCH
  | HEAD
  | OPTIONS
deriving DecidableEq

/-- The printed name of a method, as it appears on the wire. -/
def Method.name : Method → String
  | .GET => "GET"
  | .POST => "POST"
  | .PUT => "PUT"
  | .DELETE => "DELETE"
  | .PATCH => "PATCH"
  | .HEAD => "HEAD"
  | .OPTIONS => "OPTIONS"

/-- An HTTP request: the handlers read none of the body, so method and
path are the only fields that matter; the body is carried to show it is
ignored. -/
structure Request where
  method : Method
  path : String
  body : String
deriving DecidableEq

/-- A response body: Flask's `root` returns a text/HTML string, the
FastAPI handlers return a dictionary that the framework serialises as a
JSON object (represented here as its key/value association list). -/
inductive Body where
  | text : String → Body
  | json : List (String × String) → Body
deriving DecidableEq

/-- An HTTP response: status code and body. -/
structure Response where
  status : Nat
  body : Body
deriving DecidableEq

/-- Handler of Service A, `src/Docker/1/app.py` lines 6-7:
`def root(): return "Hello World from Docker <b>Flask</b>"`. -/
def root : String := "Hello World from Docker <b>Flask</b>"

/-- Handler of Service B for `GET /`, `src/Docker/2/main.py` lines 7-8:
`def read_root(): return {"Hello": "World from Docker FastAPI GET"}`. -/
def read_root : List (String × String) :=
  [("Hello", "World from Docker FastAPI GET")]

/-- Handler of Service B for `POST /`, `src/Docker/2/main.py` lines 11-12:
`def read_post_root(): return {"Hello": "World from Docker FastAPI POST"}`. -/
def read_post_root : List (String × String) :=
  [("Hello", "World from Docker FastAPI POST")]

/-- A registered route: the methods it accepts, its path, and the body
its (constant) handler returns. -/
structure Route where
  methods : List Method
  path : String
  handlerBody : Body
deriving DecidableEq

/-- Route table of Service A, from `@app.route("/")` on `root`
(`src/Docker/1/app.py` line 5; Flask's default method set for a route
names only GET). -/
def serviceA_routes : List Route :=
  [⟨[Method.GET], "/", Body.text root⟩]

/-- Route table of Service B, from `@app.get("/")` on `read_root` and
`@app.post("/")` on `read_post_root` (`src/Docker/2/main.py` lines 6
and 10). -/
def serviceB_routes : List Route :=
  [⟨[Method.GET], "/", Body.json read_root⟩,
   ⟨[Method.POST], "/", Body.json read_post_root⟩]

/-- Modelled from the spec: the frameworks' default request dispatch
(Flask / FastAPI routing internals, which are external collaborators and
not part of this repository).  A route matches when its path equals the
request path and its method list contains the request method; the first
match runs its handler and the return value is wrapped in a 200
response; with no match, a path that some route serves under another
method gets the framework default 405, and an unmatched path gets the
framework default 404. -/
def dispatch (routes : List Route) (req : Request) : Response :=
  match routes.find? (fun rt => rt.path == req.path && rt.methods.contains req.method) with
  | some rt => ⟨200, rt.handlerBody⟩
  | none =>
    if routes.any (fun rt => rt.path == req.path) then
      ⟨405, Body.text "Method Not Allowed"⟩
    else
      ⟨404, Body.text "Not Found"⟩

/-- Handling a request over the process state: the handlers consist of a
single `return` of a literal, so a request leaves the state untouched
and produces the dispatched response. -/
def dispatchSt (σ : Type) (routes : List Route) (s : σ) (req : Request) :
    Response × σ :=
  (dispatch routes req, s)

/-- Two requests handled in sequence over the shared process state:
each step is a `dispatchSt` step threading the state. -/
def runTwo (σ : Type) (routes : List Route) (s : σ) (r₁ r₂ : Request) :
    Response × Response × σ :=
  match dispatchSt σ routes s r₁ with
  | (resp₁, s₁) =>
    match dispatchSt σ routes s₁ r₂ with
    | (resp₂, s₂) => (resp₁, resp₂, s₂)

/-- Splits a list of characters into words at spaces, carrying the
characters of the current word in reverse. -/
def wordsAux : List Char → List Char → List String
  | [], acc => [String.mk acc.reverse]
  | c :: cs, acc =>
    if c = ' ' then String.mk acc.reverse :: wordsAux cs []
    else wordsAux cs (c :: acc)

/-- The space-separated words of a string. -/
def words (s : String) : List String := wordsAux s.toList []

/-- Host and port passed to `app.run`. -/
structure RunConfig where
  host : String
  port : Nat
deriving DecidableEq

/-- Bootstrap block of Service A, `src/Docker/1/app.py` lines 10-11:
`if __name__ == "__main__": app.run(host="0.0.0.0", port=5000)` —
the server is started only when the module runs as the main program. -/
def serviceA_main (moduleName : String) : Option RunConfig :=
  if moduleName == "__main__" then some ⟨"0.0.0.0", 5000⟩ else none

/-- C1: every `GET /` on Service A is answered with status 200 and body
exactly the string returned by `root`, namely
`Hello World from Docker <b>Flask</b>`. -/
theorem serviceA_get_root_ok (req : Request)
    (h₁ : req.method = Method.GET) (h₂ : req.path = "/") :
    dispatch serviceA_routes req = ⟨200, Body.text root⟩ ∧
      root = "Hello World from Docker <b>Flask</b>" := by
  obtain ⟨m, p, b⟩ := req
  cases h₁
  cases h₂
  exact ⟨rfl, rfl⟩

/-- Witness for C1 at the concrete request `GET /`. -/
theorem serviceA_get_root_ok_witness :
    dispatch serviceA_routes ⟨Method.GET, "/", ""⟩ = ⟨200, Body.text root⟩ ∧
      root = "Hello World from Docker <b>Flask</b>" :=
  serviceA_get_root_ok ⟨Method.GET, "/", ""⟩ rfl rfl

/-- C2: every `GET /` on Service B is answered with status 200 and JSON
body exactly the single-key object returned by `read_root`, namely
`{"Hello": "World from Docker FastAPI GET"}`. -/
theorem serviceB_get_root_ok (req : Request)
    (h₁ : req.method = Method.GET) (h₂ : req.path = "/") :
    dispatch serviceB_routes req = ⟨200, Body.json read_root⟩ ∧
      read_root = [("Hello", "World from Docker FastAPI GET")] := by
  obtain ⟨m, p, b⟩ := req
  cases h₁
  cases h₂
  exact ⟨rfl, rfl⟩

/-- Witness for C2 at the concrete request `GET /`. -/
theorem serviceB_get_root_ok_witness :
    dispatch serviceB_routes ⟨Method.GET, "/", ""⟩ = ⟨200, Body.json read_root⟩ ∧
      read_root = [("Hello", "World from Docker FastAPI GET")] :=
  serviceB_get_root_ok ⟨Method.GET, "/", ""⟩ rfl rfl

/-- C3: every `POST /` on Service B is answered with status 200 and JSON
body exactly the single-key object returned by `read_post_root`, namely
`{"Hello": "World from Docker FastAPI POST"}`. -/
theorem serviceB_post_root_ok (req : Request)
    (h₁ : req.method = Method.POST) (h₂ : req.path = "/") :
    dispatch serviceB_routes req = ⟨200, Body.json read_post_root⟩ ∧
      read_post_root = [("Hello", "World from Docker FastAPI POST")] := by
  obtain ⟨m, p, b⟩ := req
  cases h₁
  cases h₂
  exact ⟨rfl, rfl⟩

/-- Witness for C3 at the concrete request `POST /`. -/
theorem serviceB_post_root_ok_witness :
    dispatch serviceB_routes ⟨Method.POST, "/", ""⟩ = ⟨200, Body.json read_post_root⟩ ∧
      read_post_root = [("Hello", "World from Docker FastAPI POST")] :=
  serviceB_post_root_ok ⟨Method.POST, "/", ""⟩ rfl rfl

/-- C4: on either service, two invocations with identical requests yield
byte-identical responses, whatever the program state at each invocation:
every handler is a deterministic constant function of the request. -/
theorem responses_deterministic (σ : Type) (s s' : σ) (routes : List Route)
    (_hr : routes = serviceA_routes ∨ routes = serviceB_routes)
    (req req' : Request) (h : req = req') :
    (dispatchSt σ routes s req).1 = (dispatchSt σ routes s' req').1 := by
  cases h
  rfl

/-- Witness for C4: Service A at the request `GET /`, two distinct
program states. -/
theorem responses_deterministic_witness :
    (dispatchSt Nat serviceA_routes 0 ⟨Method.GET, "/", ""⟩).1 =
      (dispatchSt Nat serviceA_routes 1 ⟨Method.GET, "/", ""⟩).1 :=
  responses_deterministic Nat 0 1 serviceA_routes (Or.inl rfl)
    ⟨Method.GET, "/", ""⟩ ⟨Method.GET, "/", ""⟩ rfl

/-- C5: a request whose path is not `/` matches no registered route of
either service and gets the framework default 404 (a client-error
status); indeed no route of either route table has a path other than
`/`. -/
theorem unmatched_path_not_found (req : Request) (h : req.path ≠ "/") :
    (dispatch serviceA_routes req = ⟨404, Body.text "Not Found"⟩ ∧
      dispatch serviceB_routes req = ⟨404, Body.text "Not Found"⟩ ∧
      400 ≤ 404 ∧ 404 < 500) ∧
    (∀ rt ∈ serviceA_routes, rt.path = "/") ∧
    (∀ rt ∈ serviceB_routes, rt.path = "/") := by
  obtain ⟨m, p, b⟩ := req
  simp only [ne_eq] at h
  have hb : ("/" == p) = false := beq_eq_false_iff_ne.mpr (Ne.symm h)
  refine ⟨⟨?_, ?_, by norm_num, by norm_num⟩, ?_, ?_⟩
  · simp [dispatch, serviceA_routes, List.find?, List.any, hb]
  · simp [dispatch, serviceB_routes, List.find?, List.any, hb]
  · intro rt hrt
    simp only [serviceA_routes, List.mem_singleton] at hrt
    simp [hrt]
  · intro rt hrt
    fin_cases hrt <;> rfl

/-- Witness for C5 at the concrete request `GET /nonexistent`. -/
theorem unmatched_path_not_found_witness :
    (dispatch serviceA_routes ⟨Method.GET, "/nonexistent", ""⟩ =
        ⟨404, Body.text "Not Found"⟩ ∧
      dispatch serviceB_routes ⟨Method.GET, "/nonexistent", ""⟩ =
        ⟨404, Body.text "Not Found"⟩ ∧
      400 ≤ 404 ∧ 404 < 500) ∧
    (∀ rt ∈ serviceA_routes, rt.path = "/") ∧
    (∀ rt ∈ serviceB_routes, rt.path = "/") :=
  unmatched_path_not_found ⟨Method.GET, "/nonexistent", ""⟩ (by decide)

/-- C6: started as the main program, Service A binds host `0.0.0.0` and
TCP port 5000; imported under any other module name it starts no
server. -/
theorem serviceA_main_binds :
    serviceA_main "__main__" = some ⟨"0.0.0.0", 5000⟩ ∧
      serviceA_main "app" = none :=
  ⟨rfl, rfl⟩

/-- C7: on either service, handling any request leaves the program state
exactly as it was: the handlers' only effect is the returned response. -/
theorem handlers_preserve_state (σ : Type) (s : σ) (routes : List Route)
    (_hr : routes = serviceA_routes ∨ routes = serviceB_routes)
    (req : Request) :
    (dispatchSt σ routes s req).2 = s := rfl

/-- Witness for C7: Service B at the request `POST /`. -/
theorem handlers_preserve_state_witness :
    (dispatchSt Nat serviceB_routes 7 ⟨Method.POST, "/", ""⟩).2 = 7 :=
  handlers_preserve_state Nat 7 serviceB_routes (Or.inr rfl)
    ⟨Method.POST, "/", ""⟩

/-- C8: a request to `/` on Service A with any method other than GET
matches no handler (the route registration for `/` names no method
beyond the default GET) and gets the framework default 405. -/
theorem serviceA_non_get_root (req : Request)
    (h₁ : req.path = "/") (h₂ : req.method ≠ Method.GET) :
    dispatch serviceA_routes req = ⟨405, Body.text "Method Not Allowed"⟩ ∧
      serviceA_routes.map Route.methods = [[Method.GET]] := by
  obtain ⟨m, p, b⟩ := req
  cases h₁
  refine ⟨?_, rfl⟩
  cases m
  · exact absurd rfl h₂
  all_goals rfl

/-- Witness for C8 at the concrete request `POST /`. -/
theorem serviceA_non_get_root_witness :
    dispatch serviceA_routes ⟨Method.POST, "/", ""⟩ =
        ⟨405, Body.text "Method Not Allowed"⟩ ∧
      serviceA_routes.map Route.methods = [[Method.GET]] :=
  serviceA_non_get_root ⟨Method.POST, "/", ""⟩ rfl (by decide)

/-- C9: on either service, two requests handled over the shared process
state, in either order, each receive exactly the response they would
receive in isolation: the handlers share no mutable state, so one
request's handling never influences another's response. -/
theorem concurrent_noninterference (σ : Type) (s : σ) (routes : List Route)
    (_hr : routes = serviceA_routes ∨ routes = serviceB_routes)
    (r₁ r₂ : Request) :
    (runTwo σ routes s r₁ r₂).1 = dispatch routes r₁ ∧
      (runTwo σ routes s r₁ r₂).2.1 = dispatch routes r₂ ∧
      (runTwo σ routes s r₂ r₁).2.1 = dispatch routes r₁ ∧
      (runTwo σ routes s r₂ r₁).1 = dispatch routes r₂ :=
  ⟨rfl, rfl, rfl, rfl⟩

/-- Witness for C9: Service A, two identical `GET /` requests. -/
theorem concurrent_noninterference_witness :
    (runTwo Nat serviceA_routes 0 ⟨Method.GET, "/", ""⟩ ⟨Method.GET, "/", ""⟩).1 =
        dispatch serviceA_routes ⟨Method.GET, "/", ""⟩ ∧
      (runTwo Nat serviceA_routes 0 ⟨Method.GET, "/", ""⟩ ⟨Method.GET, "/", ""⟩).2.1 =
        dispatch serviceA_routes ⟨Method.GET, "/", ""⟩ :=
  ⟨(concurrent_noninterference Nat 0 serviceA_routes (Or.inl rfl)
      ⟨Method.GET, "/", ""⟩ ⟨Method.GET, "/", ""⟩).1,
    (concurrent_noninterference Nat 0 serviceA_routes (Or.inl rfl)
      ⟨Method.GET, "/", ""⟩ ⟨Method.GET, "/", ""⟩).2.1⟩

/-- C10: both Service B handlers return a mapping with the single key
`Hello`; the two values share every word but the last, and the last word
of each is the name of the method the handler serves (`GET` for
`read_root`, `POST` for `read_post_root`); the two bodies differ, so the
response body determines the request method. -/
theorem serviceB_body_encodes_method :
    read_root.map Prod.fst = ["Hello"] ∧
      read_post_root.map Prod.fst = ["Hello"] ∧
      (∃ v₁ v₂,
        read_root = [("Hello", v₁)] ∧
        read_post_root = [("Hello", v₂)] ∧
        (words v₁).dropLast = (words v₂).dropLast ∧
        (words v₁).getLast? = some Method.GET.name ∧
        (words v₂).getLast? = some Method.POST.name) ∧
      dispatch serviceB_routes ⟨Method.GET, "/", ""⟩ ≠
        dispatch serviceB_routes ⟨Method.POST, "/", ""⟩ := by
  refine ⟨rfl, rfl,
    ⟨"World from Docker FastAPI GET", "World from Docker FastAPI POST",
      rfl, rfl, ?_, ?_, ?_⟩, ?_⟩ <;> decide
